import Mathlib

/-
  Verification development for a minimal user-management HTTP service.

  The repository contains several near-duplicate CRUD-over-users variants:
  * an in-memory array variant (Express handlers over a `users` array),
    embedded below as namespace `InMemory`;
  * a PostgreSQL variant (`index.ts`, COALESCE-based partial update),
    embedded below as namespace `Pg`;
  * a MongoDB variant (unique email index, password-excluding projections),
    embedded below as namespace `Mongo`;
  * an in-memory map store module (`addUser`/`findUserById`/`updateUser`/
    `deleteUser` over a keyed object), embedded below as namespace `MapStore`.

  Handlers are embedded as pure state-passing functions: an Express handler
  mutating the module-level store and calling `res.status(s).json(b)` becomes
  a function from the store and the request fields to the new store, the
  HTTP status code, and the response body. A JSON object body is embedded as
  an association list of string key/value pairs, so that structural absence
  of a field (a key not occurring in the serialized output) is expressible.
  Absent request-body fields are `Option.none`; JavaScript falsiness of a
  string field (`!x`, true for both `undefined` and `""`) is `isBlank`.
-/

/-- JavaScript falsiness of an optional string request field: `!x` holds for
an absent field and for the empty string. -/
def isBlank : Option String → Bool
  | none => true
  | some s => s.isEmpty

/-- The spec's error taxonomy (§7): `ValidationError`, `ConflictError`,
`NotFoundError`. -/
inductive ErrKind where
  | validation
  | conflict
  | notFound
  deriving DecidableEq, Repr

/-- The status-code mapping the HTTP layer applies to the spec's error kinds:
400 carries a `ValidationError`, 409 a `ConflictError`, 404 a `NotFoundError`. -/
def errKindOfStatus (status : Nat) : Option ErrKind :=
  if status = 400 then some ErrKind.validation
  else if status = 409 then some ErrKind.conflict
  else if status = 404 then some ErrKind.notFound
  else none

namespace Guard

/-- Modelled from the spec: the one-way hash core is the external `bcrypt`
library (`bcrypt.hash`/salt generation are not under src; the repository only
calls them). Per the spec (§4.1), an encoded credential hash embeds the cost
factor, the salt, and the salted digest of the secret. -/
structure EncodedHash where
  cost : Nat
  salt : Nat
  digest : Nat
  deriving DecidableEq, Repr

/-- Modelled from the spec: the salted one-way digest underlying the encoded
hash. The concrete mixing function stands in for bcrypt's key derivation;
what the claims use is only that `verifyCredential` recomputes the same
digest from the salt embedded in the stored hash. -/
def rawDigest (salt : Nat) (secret : String) : Nat :=
  secret.foldl (fun acc c => acc * 131 + c.toNat) (salt + 1)

/-- Modelled from the spec: `prepareCredential(rawSecret)` fails with a
`ValidationError` on an empty secret, and otherwise encodes the cost factor,
the freshly drawn salt (passed here explicitly, standing for the randomness
of `bcrypt.genSalt`), and the salted digest. -/
def prepareCredential (cost salt : Nat) (rawSecret : String) :
    Except ErrKind EncodedHash :=
  if rawSecret.isEmpty then Except.error ErrKind.validation
  else Except.ok ⟨cost, salt, rawDigest salt rawSecret⟩

/-- Modelled from the spec: `verifyCredential(rawSecret, credentialHash)`
recomputes the hash check against the stored encoded hash, using the salt
and cost factor embedded in it, and returns whether the digests match. -/
def verifyCredential (rawSecret : String) (stored : EncodedHash) : Bool :=
  rawDigest stored.salt rawSecret == stored.digest

end Guard

namespace InMemory

/-- The in-memory array variant's user record:
`{ id, name, email, password }` with `password` holding the bcrypt hash. -/
structure User where
  id : Nat
  name : String
  email : String
  password : String
  deriving DecidableEq, Repr

/-- `res.json(user)` serializes every field of the record, the `password`
(credential hash) field included. -/
def userJson (u : User) : List (String × String) :=
  [("id", toString u.id), ("name", u.name), ("email", u.email),
   ("password", u.password)]

/-- `app.post('/users')`: validate `name`/`email`/`password` (reject when any
is falsy), hash the password (the bcrypt output is the `hashed` argument),
append `{ id: users.length + 1, name, email, password: hashedPassword }`, and
respond 201 with the new user object. -/
def postUsersRoute (users : List User) (name email password : Option String)
    (hashed : String) : List User × Nat × List (String × String) :=
  if isBlank name || isBlank email || isBlank password then
    (users, 400, [("error", "Missing required fields")])
  else
    let newUser : User := ⟨users.length + 1, name.getD "", email.getD "", hashed⟩
    (users ++ [newUser], 201, userJson newUser)

/-- `users.findIndex((u) => u.id === userId)`, as an optional index. -/
def findUserIdx : List User → Nat → Option Nat
  | [], _ => none
  | u :: rest, userId =>
    if u.id == userId then some 0
    else (findUserIdx rest userId).map (· + 1)

/-- `app.get('/users/:id')`: find the user by id; 404 when absent, otherwise
respond with the full user object. -/
def getUserRoute (users : List User) (userId : Nat) :
    Nat × List (String × String) :=
  match users.find? (fun u => u.id == userId) with
  | none => (404, [("error", "User not found")])
  | some u => (200, userJson u)

/-- `app.put('/users/:id')`: validate all three fields, then find the index
of the user; 404 when absent, otherwise overwrite the slot with
`{ id: userId, name, email, password: hashedPassword }` and respond with it. -/
def putUsersRoute (users : List User) (userId : Nat)
    (name email password : Option String) (hashed : String) :
    List User × Nat × List (String × String) :=
  if isBlank name || isBlank email || isBlank password then
    (users, 400, [("error", "Missing required fields")])
  else
    match findUserIdx users userId with
    | none => (users, 404, [("error", "User not found")])
    | some i =>
      let updatedUser : User := ⟨userId, name.getD "", email.getD "", hashed⟩
      (users.set i updatedUser, 200, userJson updatedUser)

/-- `app.delete('/users/:id')`: find the index of the user; 404 when absent,
otherwise `users.splice(userIndex, 1)` and respond 204 with an empty body. -/
def deleteUsersRoute (users : List User) (userId : Nat) :
    List User × Nat × List (String × String) :=
  match findUserIdx users userId with
  | none => (users, 404, [("error", "User not found")])
  | some i => (users.eraseIdx i, 204, [])

end InMemory

namespace Pg

/-- The PostgreSQL variant's row shape (`interface User` of `index.ts`). -/
structure Row where
  id : Nat
  name : String
  email : String
  password : String
  deriving DecidableEq, Repr

/-- `res.json(result.rows[0])` after `RETURNING *` serializes every column,
the `password` column included. -/
def rowJson (r : Row) : List (String × String) :=
  [("id", toString r.id), ("name", r.name), ("email", r.email),
   ("password", r.password)]

/-- `app.put('/users/:id')` of the PostgreSQL variant: reject a NaN id
(`userId = none`); reject when `!name && !email && !password`; otherwise hash
the password only when it is truthy and run
`UPDATE users SET name = COALESCE($1, name), email = COALESCE($2, email),
password = COALESCE($3, password) WHERE id = $4 RETURNING *`; 404 when no row
matched, otherwise respond with the returned row. A field that is `none`
(absent, hence SQL NULL) keeps the stored column; an empty string is a
non-NULL parameter and overwrites it. -/
def putUsers (rows : List Row) (userId : Option Nat)
    (name email password : Option String) (hashed : String) :
    List Row × Nat × List (String × String) :=
  match userId with
  | none => (rows, 400, [("error", "Invalid user ID")])
  | some uid =>
    if isBlank name && isBlank email && isBlank password then
      (rows, 400, [("error", "No fields to update")])
    else
      let hashedPassword : Option String :=
        if isBlank password then none else some hashed
      let updated := rows.map fun r =>
        if r.id == uid then
          { r with name := name.getD r.name, email := email.getD r.email,
                   password := hashedPassword.getD r.password }
        else r
      match updated.find? (fun r => r.id == uid) with
      | none => (updated, 404, [("error", "User not found")])
      | some r => (updated, 200, rowJson r)

end Pg

namespace Mongo

/-- The MongoDB variant's user document fields (`userSchema`). -/
structure MUser where
  name : String
  email : String
  password : String
  deriving DecidableEq, Repr

/-- `app.post('/users')` of the MongoDB variant, `validateInput` included:
reject when any of `name`/`email`/`password` is falsy; hash the password
(bcrypt output passed as `hashed`) and save the new document; a duplicate-key
failure (`err.code === 11000`) becomes 409 `Email already exists`; otherwise
respond 201 with a message body that carries no user fields.

Modelled from the spec: the uniqueness check itself lives in the storage
collaborator (MongoDB's `unique: true` index on `email`, not under src);
per the spec, "`contactAddress` uniqueness is enforced by the storage
collaborator", so saving fails with the duplicate-key error exactly when a
stored document already holds the same email. -/
def postUsers (store : List MUser) (name email password : Option String)
    (hashed : String) : List MUser × Nat × List (String × String) :=
  if isBlank name || isBlank email || isBlank password then
    (store, 400, [("error", "Missing required fields")])
  else if store.any (fun u => u.email == email.getD "") then
    (store, 409, [("error", "Email already exists")])
  else
    (store ++ [⟨name.getD "", email.getD "", hashed⟩], 201,
      [("message", "User created successfully")])

end Mongo

namespace MapStore

/-- A record in the keyed in-memory store. JavaScript objects may simply
lack the `id` field (the spread `{ ...users[id], ...user }` over an absent
`users[id]` yields an object with no `id` key), so `id` is optional here. -/
structure SUser where
  id : Option String
  name : String
  email : String
  password : String
  deriving DecidableEq, Repr

/-- `users[id] = value` on the keyed object: replace the value under an
existing key in place, or append a new key at the end. -/
def setKey : List (String × SUser) → String → SUser → List (String × SUser)
  | [], k, v => [(k, v)]
  | (k1, v1) :: rest, k, v =>
    if k1 == k then (k, v) :: rest else (k1, v1) :: setKey rest k v

/-- `findUserById(id)`: `users[id]`. -/
def findUserById (st : List (String × SUser)) (id : String) : Option SUser :=
  List.lookup id st

/-- `updateUser(id, user)`: build `{ ...users[id], ...user }` — the stored
record with `name`/`email`/`password` overridden when present, or, when
nothing is stored under `id`, an object holding only the supplied fields and
no `id` key — store it under `id`, and return it. No not-found check. -/
def updateUser (st : List (String × SUser)) (id name email password : String) :
    List (String × SUser) × SUser :=
  let updatedUser : SUser :=
    match List.lookup id st with
    | some old => ⟨old.id, name, email, password⟩
    | none => ⟨none, name, email, password⟩
  (setKey st id updatedUser, updatedUser)

/-- `deleteUser(id)`: `delete users[id]`. -/
def deleteUser (st : List (String × SUser)) (id : String) :
    List (String × SUser) :=
  st.filter (fun p => !(p.1 == id))

end MapStore

section Lemmas

open InMemory

theorem findUserIdx_eq_none_iff (st : List User) (uid : Nat) :
    findUserIdx st uid = none ↔ ∀ u ∈ st, u.id ≠ uid := by
  induction st with
  | nil => simp [findUserIdx]
  | cons x rest ih =>
    by_cases hx : x.id = uid
    · simp [findUserIdx, hx]
    · simp [findUserIdx, hx, ih]

theorem findUserIdx_spec (st : List User) (uid i : Nat)
    (h : findUserIdx st uid = some i) :
    ∃ hlt : i < st.length, (st.get ⟨i, hlt⟩).id = uid := by
  induction st generalizing i with
  | nil => simp [findUserIdx] at h
  | cons x rest ih =>
    by_cases hx : x.id = uid
    · simp [findUserIdx, hx] at h
      subst h
      exact ⟨Nat.succ_pos _, hx⟩
    · simp [findUserIdx, hx] at h
      obtain ⟨j, hj, rfl⟩ := h
      obtain ⟨hlt, hid⟩ := ih j hj
      exact ⟨Nat.succ_lt_succ hlt, hid⟩

theorem findUserIdx_isSome_of_mem (st : List User) (uid : Nat) (u : User)
    (hu : u ∈ st) (hid : u.id = uid) : ∃ i, findUserIdx st uid = some i := by
  induction st with
  | nil => simp at hu
  | cons x rest ih =>
    by_cases hx : x.id = uid
    · exact ⟨0, by simp [findUserIdx, hx]⟩
    · rcases List.mem_cons.mp hu with rfl | hmem
      · exact absurd hid hx
      · obtain ⟨j, hj⟩ := ih hmem
        exact ⟨j + 1, by simp [findUserIdx, hx, hj]⟩

theorem eraseIdx_id_ne (st : List User) (uid i : Nat)
    (hnd : (st.map User.id).Nodup) (hfi : findUserIdx st uid = some i) :
    ∀ v ∈ st.eraseIdx i, v.id ≠ uid := by
  induction st generalizing i with
  | nil => simp [findUserIdx] at hfi
  | cons x rest ih =>
    rw [List.map_cons, List.nodup_cons] at hnd
    by_cases hx : x.id = uid
    · simp [findUserIdx, hx] at hfi
      subst hfi
      intro v hv hvid
      exact hnd.1 (hx ▸ hvid ▸ List.mem_map_of_mem User.id hv)
    · simp [findUserIdx, hx] at hfi
      obtain ⟨j, hj, rfl⟩ := hfi
      intro v hv
      rw [List.eraseIdx_cons_succ, List.mem_cons] at hv
      rcases hv with rfl | hv
      · exact hx
      · exact ih j hnd.2 hj v hv

theorem getUserRoute_404 (st : List User) (uid : Nat)
    (h : ∀ u ∈ st, u.id ≠ uid) :
    getUserRoute st uid = (404, [("error", "User not found")]) := by
  have hf : st.find? (fun u => u.id == uid) = none :=
    List.find?_eq_none.mpr (fun u hu => by simp [h u hu])
  simp [getUserRoute, hf]

end Lemmas

/-- **C2.** For every non-empty `rawSecret` (and any cost factor and salt),
hashing it with `prepareCredential` and then checking the same `rawSecret`
against the produced encoded hash with `verifyCredential` returns `true`. -/
theorem verify_after_prepare_succeeds (cost salt : Nat) (raw : String)
    (hraw : raw.isEmpty = false) :
    (Guard.prepareCredential cost salt raw).map (Guard.verifyCredential raw) =
      Except.ok true := by
  simp [Guard.prepareCredential, hraw, Guard.verifyCredential, Except.map]

/-- Witness for C2 at cost 12, salt 7, secret `"password123"`. -/
theorem verify_after_prepare_succeeds_witness :
    (Guard.prepareCredential 12 7 "password123").map
      (Guard.verifyCredential "password123") = Except.ok true :=
  verify_after_prepare_succeeds 12 7 "password123" (by decide)

/-- **C3.** For every non-empty `rawSecret`, two invocations of
`prepareCredential` with distinct fresh salts produce two different encoded
outputs, and each output still verifies against the same `rawSecret`. -/
theorem prepare_salt_uniqueness (cost s1 s2 : Nat) (raw : String)
    (hraw : raw.isEmpty = false) (hsalt : s1 ≠ s2) :
    ∃ h1 h2 : Guard.EncodedHash,
      Guard.prepareCredential cost s1 raw = Except.ok h1 ∧
      Guard.prepareCredential cost s2 raw = Except.ok h2 ∧
      h1 ≠ h2 ∧
      Guard.verifyCredential raw h1 = true ∧
      Guard.verifyCredential raw h2 = true := by
  refine ⟨⟨cost, s1, Guard.rawDigest s1 raw⟩, ⟨cost, s2, Guard.rawDigest s2 raw⟩,
    ?_, ?_, ?_, ?_, ?_⟩
  · simp [Guard.prepareCredential, hraw]
  · simp [Guard.prepareCredential, hraw]
  · intro heq
    exact hsalt (congrArg Guard.EncodedHash.salt heq)
  · simp [Guard.verifyCredential]
  · simp [Guard.verifyCredential]

/-- Witness for C3 at cost 12, salts 3 and 5, secret `"password123"`. -/
theorem prepare_salt_uniqueness_witness :
    ∃ h1 h2 : Guard.EncodedHash,
      Guard.prepareCredential 12 3 "password123" = Except.ok h1 ∧
      Guard.prepareCredential 12 5 "password123" = Except.ok h2 ∧
      h1 ≠ h2 ∧
      Guard.verifyCredential "password123" h1 = true ∧
      Guard.verifyCredential "password123" h2 = true :=
  prepare_salt_uniqueness 12 3 5 "password123" (by decide) (by decide)

/-- **C1.** The claim states the credential hash field is structurally absent
from every serialized response; the code contradicts it (and its own tests,
which assert `not.toHaveProperty('password')`): the in-memory variant's
create handler responds 201 with the full new user object, whose serialized
key set contains `"password"` holding the bcrypt hash. Evaluated at the
tests' own creation input. -/
theorem credential_hash_present_in_create_response :
    ((InMemory.postUsersRoute [] (some "John Doe") (some "john@example.com")
        (some "password123") "bcrypt-hash-of-password123").2.2).map Prod.fst =
      ["id", "name", "email", "password"] ∧
    ("password", "bcrypt-hash-of-password123") ∈
      (InMemory.postUsersRoute [] (some "John Doe") (some "john@example.com")
        (some "password123") "bcrypt-hash-of-password123").2.2 := by
  constructor <;> decide

/-- **C4.** A create-account request succeeds (201, account appended)
exactly when `name`, `email`, `password` are all present and non-empty; when
any is absent or empty, it fails with the validation error
`Missing required fields` (status 400, a `ValidationError` under
`errKindOfStatus`) and the store is unchanged. Stated for the in-memory
variant and the MongoDB variant (whose `validateInput` middleware performs
the same check). -/
theorem create_requires_all_fields (st : List InMemory.User)
    (mst : List Mongo.MUser) (n e p : Option String) (hashed : String) :
    ((isBlank n || isBlank e || isBlank p) = true →
      InMemory.postUsersRoute st n e p hashed =
        (st, 400, [("error", "Missing required fields")]) ∧
      Mongo.postUsers mst n e p hashed =
        (mst, 400, [("error", "Missing required fields")]) ∧
      errKindOfStatus 400 = some ErrKind.validation) ∧
    ((isBlank n || isBlank e || isBlank p) = false →
      InMemory.postUsersRoute st n e p hashed =
        (st ++ [⟨st.length + 1, n.getD "", e.getD "", hashed⟩], 201,
          InMemory.userJson ⟨st.length + 1, n.getD "", e.getD "", hashed⟩)) := by
  constructor
  · intro hb
    refine ⟨?_, ?_, by decide⟩
    · simp [InMemory.postUsersRoute, hb]
    · simp [Mongo.postUsers, hb]
  · intro hb
    simp [InMemory.postUsersRoute, hb]

/-- Witness for C4: creating with no password field fails with the
validation error and leaves the store unchanged. -/
theorem create_requires_all_fields_witness :
    InMemory.postUsersRoute [] (some "John Doe") (some "john@example.com")
      none "h" = ([], 400, [("error", "Missing required fields")]) :=
  ((create_requires_all_fields [] [] (some "John Doe")
    (some "john@example.com") none "h").1 (by decide)).1

/-- **C5.** Creating a second account whose email equals the email of a
stored account fails with 409 `Email already exists` (a `ConflictError`
under `errKindOfStatus`, an error kind distinct from `ValidationError`),
and the store gains no new account. -/
theorem duplicate_email_conflict (store : List Mongo.MUser)
    (n e p : Option String) (hashed : String) (u : Mongo.MUser)
    (hfields : (isBlank n || isBlank e || isBlank p) = false)
    (hmem : u ∈ store) (hemail : u.email = e.getD "") :
    Mongo.postUsers store n e p hashed =
      (store, 409, [("error", "Email already exists")]) ∧
    errKindOfStatus 409 = some ErrKind.conflict ∧
    ErrKind.conflict ≠ ErrKind.validation := by
  have hany : store.any (fun v => v.email == e.getD "") = true :=
    List.any_eq_true.mpr ⟨u, hmem, by simp [hemail]⟩
  refine ⟨?_, by decide, by decide⟩
  simp [Mongo.postUsers, hfields, hany]

/-- Witness for C5: duplicating the stored `john@example.com` account. -/
theorem duplicate_email_conflict_witness :
    Mongo.postUsers [⟨"John Doe", "john@example.com", "h1"⟩] (some "Jane")
      (some "john@example.com") (some "password123") "h2" =
      ([⟨"John Doe", "john@example.com", "h1"⟩], 409,
        [("error", "Email already exists")]) :=
  (duplicate_email_conflict [⟨"John Doe", "john@example.com", "h1"⟩]
    (some "Jane") (some "john@example.com") (some "password123") "h2"
    ⟨"John Doe", "john@example.com", "h1"⟩ (by decide) (by decide) rfl).1

/-- **C6.** The two update-validation policies of the claim, each applied by
its variant's single update handler: the PostgreSQL variant rejects an
update in which every mutable field is absent with `No fields to update`
(status 400), and the in-memory (full-replacement) variant rejects an update
missing any of the three fields with `Missing required fields` (status 400). -/
theorem update_validation_policy :
    (∀ (rows : List Pg.Row) (uid : Nat) (hashed : String),
      Pg.putUsers rows (some uid) none none none hashed =
        (rows, 400, [("error", "No fields to update")])) ∧
    (∀ (st : List InMemory.User) (uid : Nat) (n e p : Option String)
      (hashed : String), (isBlank n || isBlank e || isBlank p) = true →
      InMemory.putUsersRoute st uid n e p hashed =
        (st, 400, [("error", "Missing required fields")])) := by
  constructor
  · intro rows uid hashed
    simp [Pg.putUsers, isBlank]
  · intro st uid n e p hashed hb
    simp [InMemory.putUsersRoute, hb]

/-- Witness for C6: the PostgreSQL variant with all fields absent, and the
in-memory variant with the password field absent. -/
theorem update_validation_policy_witness :
    Pg.putUsers [] (some 1) none none none "h" =
      ([], 400, [("error", "No fields to update")]) ∧
    InMemory.putUsersRoute [] 1 (some "Jane Doe") (some "jane@example.com")
      none "h" = ([], 400, [("error", "Missing required fields")]) :=
  ⟨update_validation_policy.1 [] 1 "h",
   update_validation_policy.2 [] 1 (some "Jane Doe") (some "jane@example.com")
     none "h" (by decide)⟩

/-- **C7 (counterexample).** The claim's final part — a delete on a stored
identifier succeeds and a subsequent read of that identifier then fails with
`NotFoundError` — is false on a reachable store of the in-memory variant:
create alice, create bob, delete id 1, create carol; carol is then assigned
id `users.length + 1 = 2`, which bob already holds. Deleting id 2 succeeds
(it splices out bob), yet reading id 2 afterwards still returns carol with
status 200, not 404. -/
theorem delete_then_read_counterexample :
    InMemory.postUsersRoute [] (some "alice") (some "alice@example.com")
      (some "pw") "h1" =
      ([⟨1, "alice", "alice@example.com", "h1"⟩], 201,
        InMemory.userJson ⟨1, "alice", "alice@example.com", "h1"⟩) ∧
    InMemory.postUsersRoute [⟨1, "alice", "alice@example.com", "h1"⟩]
      (some "bob") (some "bob@example.com") (some "pw") "h2" =
      ([⟨1, "alice", "alice@example.com", "h1"⟩,
        ⟨2, "bob", "bob@example.com", "h2"⟩], 201,
        InMemory.userJson ⟨2, "bob", "bob@example.com", "h2"⟩) ∧
    InMemory.deleteUsersRoute
      [⟨1, "alice", "alice@example.com", "h1"⟩,
       ⟨2, "bob", "bob@example.com", "h2"⟩] 1 =
      ([⟨2, "bob", "bob@example.com", "h2"⟩], 204, []) ∧
    InMemory.postUsersRoute [⟨2, "bob", "bob@example.com", "h2"⟩]
      (some "carol") (some "carol@example.com") (some "pw") "h3" =
      ([⟨2, "bob", "bob@example.com", "h2"⟩,
        ⟨2, "carol", "carol@example.com", "h3"⟩], 201,
        InMemory.userJson ⟨2, "carol", "carol@example.com", "h3"⟩) ∧
    InMemory.deleteUsersRoute
      [⟨2, "bob", "bob@example.com", "h2"⟩,
       ⟨2, "carol", "carol@example.com", "h3"⟩] 2 =
      ([⟨2, "carol", "carol@example.com", "h3"⟩], 204, []) ∧
    InMemory.getUserRoute [⟨2, "carol", "carol@example.com", "h3"⟩] 2 ≠
      (404, [("error", "User not found")]) ∧
    InMemory.getUserRoute [⟨2, "carol", "carol@example.com", "h3"⟩] 2 =
      (200, InMemory.userJson ⟨2, "carol", "carol@example.com", "h3"⟩) := by
  refine ⟨?_, ?_, ?_, ?_, ?_, ?_, ?_⟩ <;> decide

/-- **C7 (amended).** An update or delete request whose identifier matches no
stored account fails with 404 `User not found` (a `NotFoundError` under
`errKindOfStatus`) and leaves the store unchanged; and — provided no two
stored accounts share an identifier — a delete on a stored identifier
succeeds (204) and a subsequent read of the same identifier fails with 404
`User not found`. -/
theorem update_delete_not_found_amended (st : List InMemory.User) (uid : Nat)
    (n e p : Option String) (hashed : String) :
    ((∀ u ∈ st, u.id ≠ uid) →
      ((isBlank n || isBlank e || isBlank p) = false →
        InMemory.putUsersRoute st uid n e p hashed =
          (st, 404, [("error", "User not found")])) ∧
      InMemory.deleteUsersRoute st uid =
        (st, 404, [("error", "User not found")]) ∧
      errKindOfStatus 404 = some ErrKind.notFound) ∧
    ((st.map InMemory.User.id).Nodup →
      ∀ u ∈ st, u.id = uid →
        ∃ st2, InMemory.deleteUsersRoute st uid = (st2, 204, []) ∧
          InMemory.getUserRoute st2 uid =
            (404, [("error", "User not found")])) := by
  constructor
  · intro habs
    have hfi : InMemory.findUserIdx st uid = none :=
      (findUserIdx_eq_none_iff st uid).mpr habs
    refine ⟨?_, ?_, by decide⟩
    · intro hb
      simp [InMemory.putUsersRoute, hb, hfi]
    · simp [InMemory.deleteUsersRoute, hfi]
  · intro hnd u hmem hid
    obtain ⟨i, hfi⟩ := findUserIdx_isSome_of_mem st uid u hmem hid
    refine ⟨st.eraseIdx i, ?_, ?_⟩
    · simp [InMemory.deleteUsersRoute, hfi]
    · exact getUserRoute_404 _ _ (eraseIdx_id_ne st uid i hnd hfi)

/-- Witness for the amended C7: delete of the unknown id 2 fails with 404 on
a one-account store, and delete of the stored id 1 succeeds with a
subsequent read returning 404. -/
theorem update_delete_not_found_amended_witness :
    InMemory.deleteUsersRoute [⟨1, "alice", "alice@example.com", "h1"⟩] 2 =
      ([⟨1, "alice", "alice@example.com", "h1"⟩], 404,
        [("error", "User not found")]) ∧
    ∃ st2, InMemory.deleteUsersRoute
        [⟨1, "alice", "alice@example.com", "h1"⟩] 1 = (st2, 204, []) ∧
      InMemory.getUserRoute st2 1 = (404, [("error", "User not found")]) :=
  ⟨((update_delete_not_found_amended
      [⟨1, "alice", "alice@example.com", "h1"⟩] 2 none none none "h").1
      (by decide)).2.1,
   (update_delete_not_found_amended
      [⟨1, "alice", "alice@example.com", "h1"⟩] 1 none none none "h").2
      (by decide) ⟨1, "alice", "alice@example.com", "h1"⟩ (by decide) rfl⟩

/-- **C8.** A successful update mutates the targeted account in place and
leaves its identifier unchanged: when the request fields are present and
some stored account holds the requested id, the handler overwrites exactly
the slot whose previous occupant had that id, and the account stored there
afterwards carries the same id. -/
theorem update_preserves_identifier (st : List InMemory.User) (uid : Nat)
    (n e p : Option String) (hashed : String)
    (hfields : (isBlank n || isBlank e || isBlank p) = false)
    (u : InMemory.User) (hmem : u ∈ st) (hid : u.id = uid) :
    ∃ (i : Nat) (hlt : i < st.length),
      (st.get ⟨i, hlt⟩).id = uid ∧
      InMemory.putUsersRoute st uid n e p hashed =
        (st.set i ⟨uid, n.getD "", e.getD "", hashed⟩, 200,
          InMemory.userJson ⟨uid, n.getD "", e.getD "", hashed⟩) := by
  obtain ⟨i, hfi⟩ := findUserIdx_isSome_of_mem st uid u hmem hid
  obtain ⟨hlt, hgid⟩ := findUserIdx_spec st uid i hfi
  exact ⟨i, hlt, hgid, by simp [InMemory.putUsersRoute, hfields, hfi]⟩

/-- Witness for C8: updating the single stored account with id 1. -/
theorem update_preserves_identifier_witness :
    ∃ (i : Nat)
      (hlt : i < ([⟨1, "alice", "alice@example.com", "h1"⟩] :
        List InMemory.User).length),
      (([⟨1, "alice", "alice@example.com", "h1"⟩] :
        List InMemory.User).get ⟨i, hlt⟩).id = 1 ∧
      InMemory.putUsersRoute [⟨1, "alice", "alice@example.com", "h1"⟩] 1
        (some "Jane Doe") (some "jane@example.com") (some "newpw") "h2" =
        (([⟨1, "alice", "alice@example.com", "h1"⟩] :
          List InMemory.User).set i ⟨1, "Jane Doe", "jane@example.com", "h2"⟩,
          200, InMemory.userJson ⟨1, "Jane Doe", "jane@example.com", "h2"⟩) :=
  update_preserves_identifier [⟨1, "alice", "alice@example.com", "h1"⟩] 1
    (some "Jane Doe") (some "jane@example.com") (some "newpw") "h2"
    (by decide) ⟨1, "alice", "alice@example.com", "h1"⟩ (by decide) rfl

/-- **C9.** In the in-memory array variant, a successful create assigns the
new account the identifier `users.length + 1`; consequently, after the
sequence create alice, create bob, delete id 1, create carol, the store
holds two distinct accounts (bob and carol) with the same identifier 2. -/
theorem create_assigns_length_plus_one :
    (∀ (st : List InMemory.User) (n e p : Option String) (hashed : String),
      (isBlank n || isBlank e || isBlank p) = false →
      InMemory.postUsersRoute st n e p hashed =
        (st ++ [⟨st.length + 1, n.getD "", e.getD "", hashed⟩], 201,
          InMemory.userJson ⟨st.length + 1, n.getD "", e.getD "", hashed⟩)) ∧
    (InMemory.deleteUsersRoute
        [⟨1, "alice", "alice@example.com", "h1"⟩,
         ⟨2, "bob", "bob@example.com", "h2"⟩] 1 =
        ([⟨2, "bob", "bob@example.com", "h2"⟩], 204, []) ∧
      (InMemory.postUsersRoute [⟨2, "bob", "bob@example.com", "h2"⟩]
        (some "carol") (some "carol@example.com") (some "pw") "h3").1 =
        [⟨2, "bob", "bob@example.com", "h2"⟩,
         ⟨2, "carol", "carol@example.com", "h3"⟩] ∧
      (⟨2, "bob", "bob@example.com", "h2"⟩ : InMemory.User) ≠
        ⟨2, "carol", "carol@example.com", "h3"⟩ ∧
      (⟨2, "bob", "bob@example.com", "h2"⟩ : InMemory.User).id =
        (⟨2, "carol", "carol@example.com", "h3"⟩ : InMemory.User).id) := by
  constructor
  · intro st n e p hashed hb
    simp [InMemory.postUsersRoute, hb]
  · refine ⟨?_, ?_, ?_, ?_⟩ <;> decide

/-- Witness for C9: creating carol over a one-account store of length 1
assigns her the identifier 2. -/
theorem create_assigns_length_plus_one_witness :
    InMemory.postUsersRoute [⟨2, "bob", "bob@example.com", "h2"⟩]
      (some "carol") (some "carol@example.com") (some "pw") "h3" =
      ([⟨2, "bob", "bob@example.com", "h2"⟩,
        ⟨2, "carol", "carol@example.com", "h3"⟩], 201,
        InMemory.userJson ⟨2, "carol", "carol@example.com", "h3"⟩) :=
  create_assigns_length_plus_one.1 [⟨2, "bob", "bob@example.com", "h2"⟩]
    (some "carol") (some "carol@example.com") (some "pw") "h3" (by decide)

theorem lookup_setKey (st : List (String × MapStore.SUser)) (k : String)
    (v : MapStore.SUser) :
    List.lookup k (MapStore.setKey st k v) = some v := by
  induction st with
  | nil => simp [MapStore.setKey, List.lookup]
  | cons p rest ih =>
    obtain ⟨k1, v1⟩ := p
    by_cases h : k1 = k
    · subst h
      simp [MapStore.setKey, List.lookup]
    · have hne : ¬k = k1 := fun hh => h hh.symm
      have hb : (k == k1) = false := by simp [hne]
      simp [MapStore.setKey, h, List.lookup, hb, ih]

/-- **C10.** In the keyed in-memory store, `updateUser(id, fields)` never
fails: for every `id`, it stores a record at key `id` and returns that
record (so a lookup of `id` afterwards finds it), and when nothing was
stored under `id` the stored record is built only from the supplied fields
and carries no identifier field. -/
theorem map_update_never_fails (st : List (String × MapStore.SUser))
    (id name email password : String) :
    (List.lookup id (MapStore.updateUser st id name email password).1 =
      some (MapStore.updateUser st id name email password).2) ∧
    (List.lookup id st = none →
      MapStore.updateUser st id name email password =
        (MapStore.setKey st id ⟨none, name, email, password⟩,
          ⟨none, name, email, password⟩) ∧
      (MapStore.updateUser st id name email password).2.id = none) := by
  constructor
  · cases hlk : List.lookup id st <;>
      simp [MapStore.updateUser, hlk, lookup_setKey]
  · intro hlk
    simp [MapStore.updateUser, hlk]

/-- Witness for C10: updating the absent key `"42"` on the empty store
stores and returns an id-less record instead of reporting `NotFoundError`. -/
theorem map_update_never_fails_witness :
    MapStore.updateUser [] "42" "Jane" "jane@example.com" "h" =
      (MapStore.setKey [] "42" ⟨none, "Jane", "jane@example.com", "h"⟩,
        ⟨none, "Jane", "jane@example.com", "h"⟩) ∧
    (MapStore.updateUser [] "42" "Jane" "jane@example.com" "h").2.id = none :=
  (map_update_never_fails [] "42" "Jane" "jane@example.com" "h").2 rfl
